import Mathlib

/-!
Verification of the question-answering front end (`app.py` and `LLM_QA_CLI.py`).

Python strings are embedded as `List Char`; `question.lower()` becomes
`List.map Char.toLower`, `str.split()` becomes `pysplit` (split on whitespace,
dropping empty segments), `' '.join` becomes `joinWords`, `str.strip()` becomes
`pyStrip`, and `re.sub(r'[^\w\s]', '', s)` becomes a filter by `keepChar`
(ASCII fragment of the `\w`/`\s` character classes).

The HTTP layer is simulated: `requests.post` is given an oracle `PostResult`
describing the simulated outcome (a response with status, raw body text and
the JSON parse of the body, or a raised exception).  Each `query_llm`
embedding returns the string the Python function returns together with the
list of HTTP requests it issued.
-/

/-- Python `str.split()` before dropping empties: split a character list at
whitespace characters, keeping (possibly empty) segments. -/
def splitWS : List Char → List (List Char)
  | [] => [[]]
  | c :: cs =>
    if c.isWhitespace then [] :: splitWS cs
    else
      match splitWS cs with
      | [] => [[c]]
      | w :: ws => (c :: w) :: ws

/-- Python `str.split()` (no argument): whitespace-delimited non-empty segments. -/
def pysplit (s : List Char) : List (List Char) :=
  (splitWS s).filter (fun w => !w.isEmpty)

/-- Python `' '.join(ws)`. -/
def joinWords : List (List Char) → List Char
  | [] => []
  | [w] => w
  | w :: ws => w ++ ' ' :: joinWords ws

/-- Python `str.strip()`: drop leading and trailing whitespace. -/
def pyStrip (s : List Char) : List Char :=
  ((s.dropWhile Char.isWhitespace).reverse.dropWhile Char.isWhitespace).reverse

/-- Characters kept by `re.sub(r'[^\w\s]', '', s)`: word characters
(alphanumeric or underscore) and whitespace (ASCII fragment). -/
def keepChar (c : Char) : Bool :=
  (c.isAlphanum || c == '_') || c.isWhitespace

/-- Python `str.startswith`. -/
def startsWithL (p s : List Char) : Bool :=
  decide (s.take p.length = p)

/-- Values produced by parsing a response body as JSON (`response.json()`).
Numbers are modelled as integers; parsed objects are assumed duplicate-free. -/
inductive Json where
  | str (s : List Char)
  | num (n : Int)
  | bool (b : Bool)
  | null
  | arr (elems : List Json)
  | obj (fields : List (List Char × Json))

/-- Python `dict.get(key)` on a parsed JSON object: `none` models a missing key. -/
def getField : List (List Char × Json) → List Char → Option Json
  | [], _ => none
  | (k, v) :: fs, key => if k = key then some v else getField fs key

/-- `true` exactly on `Json.obj`, i.e. the Python values that have `.get`. -/
def isObj : Json → Bool
  | .obj _ => true
  | _ => false

/-- `true` exactly when `isinstance(result, list) and len(result) > 0` holds. -/
def isNonEmptyList : Json → Bool
  | .arr (_ :: _) => true
  | _ => false

/-- Python type name of a parsed JSON value, as used in exception messages. -/
def pyTypeName : Json → List Char
  | .str _ => ("str").toList
  | .num _ => ("int").toList
  | .bool _ => ("bool").toList
  | .null => ("NoneType").toList
  | .arr _ => ("list").toList
  | .obj _ => ("dict").toList

/-- The single-quote character, used by Python `repr` and exception messages. -/
def quoteChar : Char := Char.ofNat 39

mutual

/-- Python `repr` of a parsed JSON value (string escaping inside `repr` of a
string is not modelled).  Braces are written via code points 123 and 125. -/
def pyRepr : Json → List Char
  | .str s => quoteChar :: s ++ [quoteChar]
  | .num n => (Int.repr n).toList
  | .bool true => ("True").toList
  | .bool false => ("False").toList
  | .null => ("None").toList
  | .arr xs => '[' :: pyReprSeq xs ++ [']']
  | .obj fs => Char.ofNat 123 :: pyReprFields fs ++ [Char.ofNat 125]

/-- Comma-separated `repr`s of the elements of a Python list. -/
def pyReprSeq : List Json → List Char
  | [] => []
  | [j] => pyRepr j
  | j :: js => pyRepr j ++ (", ").toList ++ pyReprSeq js

/-- Comma-separated `key: value` renderings of the items of a Python dict. -/
def pyReprFields : List (List Char × Json) → List Char
  | [] => []
  | [(k, v)] => quoteChar :: k ++ [quoteChar] ++ (": ").toList ++ pyRepr v
  | (k, v) :: fs =>
    quoteChar :: k ++ [quoteChar] ++ (": ").toList ++ pyRepr v
      ++ (", ").toList ++ pyReprFields fs

end

/-- Python `str` of a parsed JSON value. -/
def pyStr : Json → List Char
  | .str s => s
  | j => pyRepr j

/-- The message `str(e)` of an `AttributeError` raised by accessing a missing
attribute (e.g. `.get` on a list, `.strip` on an int). -/
def noAttrMsg (tyName attrName : List Char) : List Char :=
  quoteChar :: tyName ++ [quoteChar] ++ (" object has no attribute ").toList
    ++ [quoteChar] ++ attrName ++ [quoteChar]

/-- Canonical CPython message of a `JSONDecodeError` on an unparsable body
(the position information is not modelled). -/
def jsonDecodeMsg : List Char := ("Expecting value: line 1 column 1 (char 0)").toList

/-- Exceptions that `requests.post` itself can raise. -/
inductive PostExc where
  | connectionError (msg : List Char)
  | timeoutError (msg : List Char)
  | otherException (msg : List Char)

/-- Simulated outcome of the single `requests.post` call: an HTTP response
(status code, raw body text, and the JSON parse of the body — `none` when the
body is not valid JSON), or a raised exception. -/
inductive PostResult where
  | response (status : Nat) (text : List Char) (body : Option Json)
  | raises (e : PostExc)

/-- Exceptions that can escape the `try` block of either `query_llm`. -/
inductive PyExc where
  | fromPost (e : PostExc)
  | jsonDecodeError (msg : List Char)
  | attributeError (msg : List Char)

/-- Python `str(e)` for an exception value. -/
def excStr : PyExc → List Char
  | .fromPost (.connectionError m) => m
  | .fromPost (.timeoutError m) => m
  | .fromPost (.otherException m) => m
  | .jsonDecodeError m => m
  | .attributeError m => m

/-- The `parameters` object of the request payload. -/
structure GenParams where
  max_new_tokens : Nat
  temperature : Rat
  top_p : Rat
  return_full_text : Bool

/-- The JSON body sent to the endpoint. -/
structure Payload where
  inputs : List Char
  parameters : GenParams

/-- One HTTP POST request as issued by `requests.post`: URL, the value of the
`Authorization` header, the JSON payload, and the `timeout` argument in
seconds (`none` when no timeout was passed). -/
structure HttpRequest where
  url : List Char
  authorization : List Char
  payload : Payload
  timeout : Option Nat

/-- The Mistral-Instruct prompt both files build around the question. -/
def prompt (question : List Char) : List Char :=
  ("<s>[INST] Answer the following question concisely and accurately:\n\nQuestion: ").toList
    ++ question ++ ("\n\nAnswer: [/INST]").toList

namespace App

/-- `API_MODEL` from `app.py`. -/
def API_MODEL : List Char := ("mistralai/Mistral-7B-Instruct-v0.2").toList

/-- `API_URL` from `app.py` (an f-string interpolating `API_MODEL`). -/
def API_URL : List Char := ("https://router.huggingface.co/").toList ++ API_MODEL

/-- `preprocess_question` from `app.py`: lowercase, remove punctuation,
collapse whitespace, and tokenize; returns `(processed, tokens)`. -/
def preprocess_question (question : List Char) : List Char × List (List Char) :=
  let lowered := question.map Char.toLower
  let stripped := lowered.filter keepChar
  let processed := joinWords (pysplit stripped)
  let tokens := pysplit processed
  (processed, tokens)

/-- The request `app.py` builds: router URL, bearer header, Mistral prompt,
fixed generation parameters, `timeout=30`. -/
def mkRequest (question api_key : List Char) : HttpRequest :=
  ⟨API_URL, ("Bearer ").toList ++ api_key,
   ⟨prompt question, ⟨500, 0.7, 0.95, false⟩⟩, some 30⟩

/-- The `try` block of `query_llm` in `app.py`, with the simulated outcome of
`requests.post` supplied as `o`; `.error` is a raised exception. -/
def tryBody (o : PostResult) : Except PyExc (List Char) :=
  match o with
  | .raises e => .error (.fromPost e)
  | .response status text body =>
    if status = 200 then
      match body with
      | none => .error (.jsonDecodeError jsonDecodeMsg)
      | some result =>
        match result with
        | .arr (first :: _) =>
          match first with
          | .obj fields =>
            match getField fields (("generated_text").toList) with
            | some (.str s) => .ok (pyStrip s)
            | some v => .error (.attributeError (noAttrMsg (pyTypeName v) (("strip").toList)))
            | none => .ok (pyStrip (("No response generated").toList))
          | other => .error (.attributeError (noAttrMsg (pyTypeName other) (("get").toList)))
        | _ => .ok (("Error: Invalid response structure from API.").toList)
    else
      match body with
      | none => .ok (("API Error ").toList ++ (Nat.repr status).toList ++ (": ").toList ++ text)
      | some (.obj fields) =>
        match getField fields (("error").toList) with
        | some v =>
          .ok (("API Error ").toList ++ (Nat.repr status).toList ++ (": ").toList ++ pyStr v)
        | none =>
          match getField fields (("detail").toList) with
          | some v =>
            .ok (("API Error ").toList ++ (Nat.repr status).toList ++ (": ").toList ++ pyStr v)
          | none =>
            .ok (("API Error ").toList ++ (Nat.repr status).toList ++ (": ").toList ++ text)
      | some other => .error (.attributeError (noAttrMsg (pyTypeName other) (("get").toList)))

/-- The three `except` clauses of `query_llm` in `app.py`, in source order. -/
def handleExc : PyExc → List Char
  | .fromPost (.connectionError _) =>
    ("Connection Error: Could not connect to the API endpoint. Check network or API URL.").toList
  | .fromPost (.timeoutError _) =>
    ("Timeout Error: The request took too long to complete. Try a simpler question.").toList
  | e => ("An unexpected error occurred: ").toList ++ excStr e

/-- `query_llm` from `app.py`: the returned string together with the list of
HTTP requests the call issued. -/
def query_llm (question api_key : List Char) (o : PostResult) : List Char × List HttpRequest :=
  (match tryBody o with
   | .ok s => s
   | .error e => handleExc e,
   [mkRequest question api_key])

/-- The branch condition of the `ask_button` handler (`app.py` line 156):
render the returned string with error styling exactly when it starts with one
of these three literals. -/
def renderedAsError (answer : List Char) : Bool :=
  startsWithL (("API Error").toList) answer
    || startsWithL (("Connection Error").toList) answer
    || startsWithL (("An unexpected error occurred:").toList) answer

end App

namespace CLI

/-- `API_URL` from `LLM_QA_CLI.py`. -/
def API_URL : List Char :=
  ("https://api-inference.huggingface.co/models/mistralai/Mistral-7B-Instruct-v0.2").toList

/-- `preprocess_question` from `LLM_QA_CLI.py`: lowercase and collapse
whitespace (no punctuation removal); returns only the processed string. -/
def preprocess_question (question : List Char) : List Char :=
  joinWords (pysplit (question.map Char.toLower))

/-- The token list `LLM_QA_CLI.py` computes (and only prints) after
collapsing: `question.split()` on the processed string. -/
def tokensOf (question : List Char) : List (List Char) :=
  pysplit (preprocess_question question)

/-- The request `LLM_QA_CLI.py` builds: inference URL, bearer header, Mistral
prompt, fixed generation parameters, and no `timeout` argument. -/
def mkRequest (question api_key : List Char) : HttpRequest :=
  ⟨API_URL, ("Bearer ").toList ++ api_key,
   ⟨prompt question, ⟨500, 0.7, 0.95, false⟩⟩, none⟩

/-- The `try` block of `query_llm` in `LLM_QA_CLI.py`.  A non-string
`generated_text` value is returned stringified (the CLI prints it). -/
def tryBody (o : PostResult) : Except PyExc (List Char) :=
  match o with
  | .raises e => .error (.fromPost e)
  | .response status text body =>
    if status = 200 then
      match body with
      | none => .error (.jsonDecodeError jsonDecodeMsg)
      | some result =>
        match result with
        | .arr (first :: _) =>
          match first with
          | .obj fields =>
            match getField fields (("generated_text").toList) with
            | some v => .ok (pyStr v)
            | none => .ok (("No response generated").toList)
          | other => .error (.attributeError (noAttrMsg (pyTypeName other) (("get").toList)))
        | _ => .ok (pyStr result)
    else
      .ok (("Error: ").toList ++ (Nat.repr status).toList ++ (" - ").toList ++ text)

/-- The single `except Exception` clause of `query_llm` in `LLM_QA_CLI.py`. -/
def handleExc (e : PyExc) : List Char :=
  ("Error: ").toList ++ excStr e

/-- `query_llm` from `LLM_QA_CLI.py`: the returned string together with the
list of HTTP requests the call issued. -/
def query_llm (question api_key : List Char) (o : PostResult) : List Char × List HttpRequest :=
  (match tryBody o with
   | .ok s => s
   | .error e => handleExc e,
   [mkRequest question api_key])

end CLI

/-- Modelled from the spec: the configurable normalization mode of §4.1/§9,
which is absent from `src/` (the two behaviors exist only as separate
revisions there): (1) lowercase; (2) when `strip_punct` is set, delete every
character that is neither a word character nor whitespace; (3) split on
whitespace and rejoin with single spaces; (4) split the result into tokens. -/
def normalizeQuestion (strip_punct : Bool) (question : List Char) : List Char × List (List Char) :=
  let lowered := question.map Char.toLower
  let stripped := if strip_punct then lowered.filter keepChar else lowered
  let processed := joinWords (pysplit stripped)
  (processed, pysplit processed)

/-- The failure strings the three `except` clauses of `app.py` produce, as
recognizable by their leading literals. -/
def isClassifiedFailureApp (s : List Char) : Bool :=
  startsWithL (("Connection Error:").toList) s
    || startsWithL (("Timeout Error:").toList) s
    || startsWithL (("An unexpected error occurred:").toList) s

/-- The failure strings the `except Exception` clause of `LLM_QA_CLI.py`
produces, recognizable by their leading literal. -/
def isClassifiedFailureCli (s : List Char) : Bool :=
  startsWithL (("Error: ").toList) s

example : App.preprocess_question (("What is Machine-Learning?").toList)
    = ((("what is machinelearning").toList),
       [("what").toList, ("is").toList, ("machinelearning").toList]) := by decide

example : CLI.preprocess_question (("   Hello   World  ").toList) = ("hello world").toList := by
  decide

/-! ### Lemmas about the splitting and joining helpers -/

theorem splitWS_ne_nil (s : List Char) : splitWS s ≠ [] := by
  induction s with
  | nil => simp [splitWS]
  | cons c cs ih =>
    simp only [splitWS]
    split
    · simp
    · split <;> simp

theorem not_space_of_mem_splitWS {s w : List Char} {c : Char}
    (hw : w ∈ splitWS s) (hc : c ∈ w) : c.isWhitespace = false := by
  induction s generalizing w with
  | nil =>
    simp only [splitWS, List.mem_singleton] at hw
    subst hw
    simp at hc
  | cons a as ih =>
    simp only [splitWS] at hw
    by_cases ha : a.isWhitespace = true
    · rw [if_pos ha] at hw
      rcases List.mem_cons.mp hw with h | h
      · subst h
        simp at hc
      · exact ih h hc
    · rw [if_neg ha] at hw
      rcases hm : splitWS as with _ | ⟨u, us⟩
      · exact absurd hm (splitWS_ne_nil as)
      · rw [hm] at hw
        rcases List.mem_cons.mp hw with h | h
        · subst h
          rcases List.mem_cons.mp hc with h' | h'
          · subst h'
            simpa using ha
          · exact ih (hm ▸ List.mem_cons_self u us) h'
        · exact ih (hm ▸ List.mem_cons_of_mem u h) hc

theorem mem_of_mem_splitWS {s w : List Char} {c : Char}
    (hw : w ∈ splitWS s) (hc : c ∈ w) : c ∈ s := by
  induction s generalizing w with
  | nil =>
    simp only [splitWS, List.mem_singleton] at hw
    subst hw
    simp at hc
  | cons a as ih =>
    simp only [splitWS] at hw
    by_cases ha : a.isWhitespace = true
    · rw [if_pos ha] at hw
      rcases List.mem_cons.mp hw with h | h
      · subst h
        simp at hc
      · exact List.mem_cons_of_mem a (ih h hc)
    · rw [if_neg ha] at hw
      rcases hm : splitWS as with _ | ⟨u, us⟩
      · exact absurd hm (splitWS_ne_nil as)
      · rw [hm] at hw
        rcases List.mem_cons.mp hw with h | h
        · subst h
          rcases List.mem_cons.mp hc with h' | h'
          · exact h' ▸ List.mem_cons_self a as
          · exact List.mem_cons_of_mem a (ih (hm ▸ List.mem_cons_self u us) h')
        · exact List.mem_cons_of_mem a (ih (hm ▸ List.mem_cons_of_mem u h) hc)

theorem splitWS_append {w t : List Char} (hw : ∀ c ∈ w, c.isWhitespace = false)
    {u : List Char} {us : List (List Char)} (ht : splitWS t = u :: us) :
    splitWS (w ++ t) = (w ++ u) :: us := by
  induction w with
  | nil => simpa using ht
  | cons a as ih =>
    have ha : a.isWhitespace = false := hw a (List.mem_cons_self a as)
    have ih' := ih (fun c hc => hw c (List.mem_cons_of_mem a hc))
    simp only [List.cons_append, splitWS]
    rw [if_neg (by simp [ha])]
    rw [show splitWS (as.append t) = (as ++ u) :: us from ih']

theorem splitWS_no_space {w : List Char} (hw : ∀ c ∈ w, c.isWhitespace = false) :
    splitWS w = [w] := by
  have h := @splitWS_append w [] hw [] [] (by simp [splitWS])
  simpa using h

theorem mem_joinWords {ws : List (List Char)} {c : Char} (hc : c ∈ joinWords ws) :
    c = ' ' ∨ ∃ w ∈ ws, c ∈ w := by
  induction ws with
  | nil => simp [joinWords] at hc
  | cons w ws ih =>
    cases ws with
    | nil =>
      right
      exact ⟨w, List.mem_cons_self w [], by simpa [joinWords] using hc⟩
    | cons w' ws' =>
      simp only [joinWords] at hc
      rcases List.mem_append.mp hc with h | h
      · right
        exact ⟨w, List.mem_cons_self w _, h⟩
      · rcases List.mem_cons.mp h with h' | h'
        · left
          exact h'
        · rcases ih h' with h'' | ⟨u, hu, hcu⟩
          · left
            exact h''
          · right
            exact ⟨u, List.mem_cons_of_mem w hu, hcu⟩

theorem pysplit_joinWords {ws : List (List Char)}
    (h : ∀ w ∈ ws, w ≠ [] ∧ ∀ c ∈ w, c.isWhitespace = false) :
    pysplit (joinWords ws) = ws := by
  induction ws with
  | nil => simp [joinWords, pysplit, splitWS]
  | cons w ws ih =>
    obtain ⟨hne, hsp⟩ := h w (List.mem_cons_self w ws)
    have hkeep : (!w.isEmpty) = true := by
      cases w
      · exact absurd rfl hne
      · simp
    cases ws with
    | nil =>
      simp [joinWords, pysplit, splitWS_no_space hsp, hkeep]
    | cons w' ws' =>
      have hrest := ih (fun u hu => h u (List.mem_cons_of_mem w hu))
      have hsp2 : splitWS (' ' :: joinWords (w' :: ws'))
          = [] :: splitWS (joinWords (w' :: ws')) := by
        simp [splitWS]
      have h2 : splitWS (w ++ ' ' :: joinWords (w' :: ws'))
          = (w ++ []) :: splitWS (joinWords (w' :: ws')) := splitWS_append hsp hsp2
      show pysplit (w ++ ' ' :: joinWords (w' :: ws')) = w :: w' :: ws'
      unfold pysplit
      rw [h2]
      simp only [List.append_nil, List.filter_cons, hkeep, if_pos]
      exact congrArg (w :: ·) hrest

theorem pysplit_spec {s w : List Char} (hw : w ∈ pysplit s) :
    w ≠ [] ∧ ∀ c ∈ w, c.isWhitespace = false := by
  obtain ⟨h1, h2⟩ := List.mem_filter.mp hw
  refine ⟨?_, fun c hc => not_space_of_mem_splitWS h1 hc⟩
  intro hnil
  subst hnil
  simp at h2

theorem pysplit_joinWords_pysplit (s : List Char) :
    pysplit (joinWords (pysplit s)) = pysplit s :=
  pysplit_joinWords (fun _ hw => pysplit_spec hw)

/-! ### Characters of the normalized text are stable under the transform -/

theorem toNat_ofNat_of_valid {n : Nat} (h : n.isValidChar) : (Char.ofNat n).toNat = n := by
  rw [Char.ofNat, dif_pos h]
  rfl

theorem toLower_toLower (c : Char) : c.toLower.toLower = c.toLower := by
  unfold Char.toLower
  by_cases h : c.toNat ≥ 65 ∧ c.toNat ≤ 90
  · rw [if_pos h]
    have hv : Nat.isValidChar (c.toNat + 32) := Or.inl (by omega)
    rw [toNat_ofNat_of_valid hv]
    rw [if_neg (by omega)]
  · rw [if_neg h, if_neg h]

theorem map_self_of_fixed {f : Char → Char} {t : List Char} (h : ∀ c ∈ t, f c = c) :
    t.map f = t := by
  induction t with
  | nil => rfl
  | cons c cs ih =>
    simp only [List.map_cons]
    rw [h c (List.mem_cons_self c cs), ih (fun d hd => h d (List.mem_cons_of_mem c hd))]

theorem app_chars {s : List Char} {c : Char}
    (hc : c ∈ joinWords (pysplit ((s.map Char.toLower).filter keepChar))) :
    c.toLower = c ∧ keepChar c = true := by
  rcases mem_joinWords hc with h | ⟨w, hw, hcw⟩
  · subst h
    exact ⟨by decide, by decide⟩
  · have hw' : w ∈ splitWS ((s.map Char.toLower).filter keepChar) :=
      (List.mem_filter.mp hw).1
    have hmem : c ∈ (s.map Char.toLower).filter keepChar := mem_of_mem_splitWS hw' hcw
    have hkeep : keepChar c = true := (List.mem_filter.mp hmem).2
    have hmap : c ∈ s.map Char.toLower := (List.mem_filter.mp hmem).1
    obtain ⟨d, _, hd⟩ := List.mem_map.mp hmap
    exact ⟨hd ▸ toLower_toLower d, hkeep⟩

theorem cli_chars {s : List Char} {c : Char}
    (hc : c ∈ joinWords (pysplit (s.map Char.toLower))) : c.toLower = c := by
  rcases mem_joinWords hc with h | ⟨w, hw, hcw⟩
  · subst h
    decide
  · have hw' : w ∈ splitWS (s.map Char.toLower) := (List.mem_filter.mp hw).1
    have hmap : c ∈ s.map Char.toLower := mem_of_mem_splitWS hw' hcw
    obtain ⟨d, _, hd⟩ := List.mem_map.mp hmap
    exact hd ▸ toLower_toLower d

/-- C5: for every input string, both normalizers are idempotent: re-running
`preprocess_question` on the normalized text returns the same normalized text
and (for `app.py`) the same token sequence. -/
theorem preprocess_question_idempotent (s : List Char) :
    App.preprocess_question ((App.preprocess_question s).1) = App.preprocess_question s ∧
    CLI.preprocess_question (CLI.preprocess_question s) = CLI.preprocess_question s := by
  constructor
  · show App.preprocess_question (joinWords (pysplit ((s.map Char.toLower).filter keepChar)))
      = App.preprocess_question s
    simp only [App.preprocess_question]
    rw [map_self_of_fixed (fun c hc => (app_chars hc).1)]
    rw [List.filter_eq_self.mpr (fun c hc => (app_chars hc).2)]
    rw [pysplit_joinWords_pysplit, pysplit_joinWords_pysplit]
  · show CLI.preprocess_question (joinWords (pysplit (s.map Char.toLower)))
      = CLI.preprocess_question s
    simp only [CLI.preprocess_question]
    rw [map_self_of_fixed (fun c hc => cli_chars hc)]
    rw [pysplit_joinWords_pysplit]

/-- C7 (amended): the token sequence `app.py` returns is the normalized text
split on whitespace, its length is the number of non-empty
whitespace-delimited segments of the normalized text, and it is empty only if
the normalized text is empty; `app.py`'s `preprocess_question` returns both
components.  The CLI revision returns only the normalized text and computes
its (printed) tokens by the same split relation. -/
theorem tokens_eq_split (q : List Char) :
    (App.preprocess_question q).2 = pysplit ((App.preprocess_question q).1) ∧
    (App.preprocess_question q).2.length
      = ((splitWS ((App.preprocess_question q).1)).filter (fun w => !w.isEmpty)).length ∧
    ((App.preprocess_question q).2 = [] → (App.preprocess_question q).1 = []) ∧
    CLI.tokensOf q = pysplit (CLI.preprocess_question q) := by
  refine ⟨rfl, rfl, ?_, rfl⟩
  intro h
  simp only [App.preprocess_question] at h ⊢
  rw [pysplit_joinWords_pysplit] at h
  rw [h]
  rfl

/-- Witness for `tokens_eq_split`: a question made of punctuation only has an
empty token sequence, and the theorem then forces its normalized text empty. -/
theorem tokens_eq_split_witness :
    (App.preprocess_question (("?!").toList)).1 = [] :=
  (tokens_eq_split (("?!").toList)).2.2.1 (by decide)

/-- C7 counterexample: the CLI normalizer does not return the token sequence.
Its whole return value at this input is the bare normalized text (the
embedding `CLI.preprocess_question` returns a single string, mirroring
`return question` at `LLM_QA_CLI.py` line 22, with tokens computed only for
printing), whereas `app.py` returns the `(text, tokens)` pair the claim
requires of the normalizer. -/
theorem cli_returns_text_only :
    CLI.preprocess_question (("   Hello   World  ").toList) = ("hello world").toList
    ∧ CLI.tokensOf (("   Hello   World  ").toList)
        = [("hello").toList, ("world").toList]
    ∧ App.preprocess_question (("   Hello   World  ").toList)
        = ((("hello world").toList), [("hello").toList, ("world").toList]) :=
  ⟨by decide, by decide, by decide⟩

/-- C8: normalizing the example question in punctuation-stripping mode
(`app.py`) yields the claimed text and the three claimed tokens, and both
behaviors are selectable through the spec-modelled mode `normalizeQuestion`:
mode `true` agrees with `app.py` and mode `false` with `LLM_QA_CLI.py` on
every input. -/
theorem preprocess_example_and_modes :
    App.preprocess_question (("What is Machine-Learning?").toList)
      = ((("what is machinelearning").toList),
         [("what").toList, ("is").toList, ("machinelearning").toList]) ∧
    (App.preprocess_question (("What is Machine-Learning?").toList)).2.length = 3 ∧
    (∀ q, normalizeQuestion true q = App.preprocess_question q) ∧
    (∀ q, (normalizeQuestion false q).1 = CLI.preprocess_question q
        ∧ (normalizeQuestion false q).2 = CLI.tokensOf q) :=
  ⟨by decide, by decide, fun _ => rfl, fun _ => ⟨rfl, rfl⟩⟩

/-! ### The inference call never raises: every exception becomes a classified string -/

theorem take_len_append (p r : List Char) : (p ++ r).take p.length = p := by
  induction p with
  | nil => rfl
  | cons a as ih => simp [List.take_succ_cons, ih]

theorem startsWithL_append (p r : List Char) : startsWithL p (p ++ r) = true := by
  simp [startsWithL, take_len_append]

theorem unexpected_starts (m : List Char) :
    startsWithL (("An unexpected error occurred:").toList)
      (("An unexpected error occurred: ").toList ++ m) = true := by
  have h : ("An unexpected error occurred: ").toList
      = ("An unexpected error occurred:").toList ++ (" ").toList := by decide
  rw [h, List.append_assoc]
  exact startsWithL_append _ _

theorem handleExc_app_classified (e : PyExc) :
    isClassifiedFailureApp (App.handleExc e) = true := by
  rcases e with (⟨m⟩ | ⟨m⟩ | ⟨m⟩) | m | m
  · show isClassifiedFailureApp
      (("Connection Error: Could not connect to the API endpoint. Check network or API URL.").toList)
        = true
    decide
  · show isClassifiedFailureApp
      (("Timeout Error: The request took too long to complete. Try a simpler question.").toList)
        = true
    decide
  · show isClassifiedFailureApp (("An unexpected error occurred: ").toList ++ m) = true
    unfold isClassifiedFailureApp
    rw [unexpected_starts]
    simp
  · show isClassifiedFailureApp (("An unexpected error occurred: ").toList ++ m) = true
    unfold isClassifiedFailureApp
    rw [unexpected_starts]
    simp
  · show isClassifiedFailureApp (("An unexpected error occurred: ").toList ++ m) = true
    unfold isClassifiedFailureApp
    rw [unexpected_starts]
    simp

theorem handleExc_cli_classified (e : PyExc) :
    isClassifiedFailureCli (CLI.handleExc e) = true := by
  show isClassifiedFailureCli (("Error: ").toList ++ excStr e) = true
  unfold isClassifiedFailureCli
  rw [startsWithL_append]

/-- C1: for every question, credential and simulated HTTP outcome (success,
non-200 status, connection failure, timeout, or any other exception), both
`query_llm` embeddings return a string: either the value the `try` block
produced, or — when the `try` body raised — the output of the corresponding
`except` clause, which is a classified failure string.  No exception escapes:
the handler is applied to every raised exception. -/
theorem query_llm_total_and_classified (q k : List Char) (o : PostResult) :
    ((∃ s, App.tryBody o = .ok s ∧ (App.query_llm q k o).1 = s) ∨
      (∃ e, App.tryBody o = .error e ∧ (App.query_llm q k o).1 = App.handleExc e
        ∧ isClassifiedFailureApp (App.handleExc e) = true)) ∧
    ((∃ s, CLI.tryBody o = .ok s ∧ (CLI.query_llm q k o).1 = s) ∨
      (∃ e, CLI.tryBody o = .error e ∧ (CLI.query_llm q k o).1 = CLI.handleExc e
        ∧ isClassifiedFailureCli (CLI.handleExc e) = true)) := by
  constructor
  · rcases h : App.tryBody o with e | s
    · exact Or.inr ⟨e, rfl, by simp [App.query_llm, h], handleExc_app_classified e⟩
    · exact Or.inl ⟨s, rfl, by simp [App.query_llm, h]⟩
  · rcases h : CLI.tryBody o with e | s
    · exact Or.inr ⟨e, rfl, by simp [CLI.query_llm, h], handleExc_cli_classified e⟩
    · exact Or.inl ⟨s, rfl, by simp [CLI.query_llm, h]⟩

/-! ### Interpretation of HTTP 200 responses -/

/-- C2 counterexample: on a 200 response whose first record carries a
`generated_text` with surrounding whitespace, the CLI inference call returns
the field value untrimmed, so the result differs from its trimmed form. -/
theorem cli_returns_untrimmed_text :
    (CLI.query_llm [] [] (.response 200 []
        (some (.arr [.obj [((("generated_text").toList),
          .str ((" Paris is the capital. ").toList))]])))).1
      = (" Paris is the capital. ").toList
    ∧ (" Paris is the capital. ").toList
        ≠ pyStrip ((" Paris is the capital. ").toList) := by
  exact ⟨by decide, by decide⟩

/-- C2 (amended): on a 200 response whose body is a non-empty list whose
first element is a record, `app.py` returns the record's `generated_text`
string with surrounding whitespace trimmed while `LLM_QA_CLI.py` returns it
untrimmed; both return the literal `No response generated` when the field is
absent. -/
theorem generated_text_extraction (q k text : List Char)
    (fields : List (List Char × Json)) (rest : List Json) :
    (∀ s, getField fields (("generated_text").toList) = some (.str s) →
      (App.query_llm q k (.response 200 text (some (.arr (.obj fields :: rest))))).1 = pyStrip s
      ∧ (CLI.query_llm q k (.response 200 text (some (.arr (.obj fields :: rest))))).1 = s) ∧
    (getField fields (("generated_text").toList) = none →
      (App.query_llm q k (.response 200 text (some (.arr (.obj fields :: rest))))).1
        = ("No response generated").toList
      ∧ (CLI.query_llm q k (.response 200 text (some (.arr (.obj fields :: rest))))).1
        = ("No response generated").toList) := by
  constructor
  · intro s hs
    simp only [String.toList] at hs
    constructor
    · simp [App.query_llm, App.tryBody, hs]
    · simp [CLI.query_llm, CLI.tryBody, hs, pyStr]
  · intro hn
    simp only [String.toList] at hn
    constructor
    · have h : (App.query_llm q k (.response 200 text (some (.arr (.obj fields :: rest))))).1
          = pyStrip (("No response generated").toList) := by
        simp [App.query_llm, App.tryBody, hn]
      exact h.trans (by decide)
    · simp [CLI.query_llm, CLI.tryBody, hn]

/-- Witness for `generated_text_extraction`: the spec's own example body
`[{"generated_text": " Paris is the capital. "}]` gives the trimmed answer in
`app.py`. -/
theorem generated_text_extraction_witness :
    (App.query_llm [] [] (.response 200 []
        (some (.arr [.obj [((("generated_text").toList),
          .str ((" Paris is the capital. ").toList))]])))).1
      = ("Paris is the capital.").toList := by
  have h := ((generated_text_extraction [] [] []
      [((("generated_text").toList), .str ((" Paris is the capital. ").toList))] []).1
      ((" Paris is the capital. ").toList) rfl).1
  exact h.trans (by decide)

/-- C3 counterexample: a 200 response whose body is a non-empty JSON list with
a non-record element — one of the claim's own examples — makes `app.py` return
the unexpected-error string, not the invalid-structure failure. -/
theorem non_record_list_counterexample :
    (App.query_llm [] [] (.response 200 [] (some (.arr [.num 5])))).1
      = ("An unexpected error occurred: ").toList
          ++ noAttrMsg (("int").toList) (("get").toList)
    ∧ (App.query_llm [] [] (.response 200 [] (some (.arr [.num 5])))).1
        ≠ ("Error: Invalid response structure from API.").toList := by
  exact ⟨by decide, by decide⟩

/-- C3 (amended): on a 200 response, `app.py` returns the invalid-structure
failure exactly when the parsed body is not a non-empty list (object, empty
list, or any scalar); a non-empty list whose first element is not a record is
instead answered with the unexpected-error string (AttributeError on `.get`),
as is an unparsable body (JSONDecodeError); `LLM_QA_CLI.py` returns the
stringified body for a parsed non-list body instead of any failure value. -/
theorem invalid_structure_classification (q k text : List Char) :
    (∀ j, isNonEmptyList j = false →
      (App.query_llm q k (.response 200 text (some j))).1
        = ("Error: Invalid response structure from API.").toList
      ∧ (CLI.query_llm q k (.response 200 text (some j))).1 = pyStr j) ∧
    (∀ first rest, isObj first = false →
      (App.query_llm q k (.response 200 text (some (.arr (first :: rest))))).1
        = ("An unexpected error occurred: ").toList
            ++ noAttrMsg (pyTypeName first) (("get").toList)) ∧
    ((App.query_llm q k (.response 200 text none)).1
      = ("An unexpected error occurred: ").toList ++ jsonDecodeMsg) := by
  refine ⟨?_, ?_, ?_⟩
  · intro j hj
    cases j with
    | arr elems =>
      cases elems with
      | nil =>
        exact ⟨by simp [App.query_llm, App.tryBody],
               by simp [CLI.query_llm, CLI.tryBody]⟩
      | cons x xs => simp [isNonEmptyList] at hj
    | str s =>
      exact ⟨by simp [App.query_llm, App.tryBody],
             by simp [CLI.query_llm, CLI.tryBody]⟩
    | num n =>
      exact ⟨by simp [App.query_llm, App.tryBody],
             by simp [CLI.query_llm, CLI.tryBody]⟩
    | bool b =>
      exact ⟨by simp [App.query_llm, App.tryBody],
             by simp [CLI.query_llm, CLI.tryBody]⟩
    | null =>
      exact ⟨by simp [App.query_llm, App.tryBody],
             by simp [CLI.query_llm, CLI.tryBody]⟩
    | obj fs =>
      exact ⟨by simp [App.query_llm, App.tryBody],
             by simp [CLI.query_llm, CLI.tryBody]⟩
  · intro first rest hfirst
    cases first with
    | obj fs => simp [isObj] at hfirst
    | str s => simp [App.query_llm, App.tryBody, App.handleExc, excStr, pyTypeName]
    | num n => simp [App.query_llm, App.tryBody, App.handleExc, excStr, pyTypeName]
    | bool b => simp [App.query_llm, App.tryBody, App.handleExc, excStr, pyTypeName]
    | null => simp [App.query_llm, App.tryBody, App.handleExc, excStr, pyTypeName]
    | arr elems => simp [App.query_llm, App.tryBody, App.handleExc, excStr, pyTypeName]
  · simp [App.query_llm, App.tryBody, App.handleExc, excStr]

/-- Witness for `invalid_structure_classification`: the spec's own example —
a 200 response with body `{}` — yields the invalid-structure failure string. -/
theorem invalid_structure_classification_witness :
    (App.query_llm [] [] (.response 200 [] (some (.obj [])))).1
      = ("Error: Invalid response structure from API.").toList :=
  ((invalid_structure_classification [] [] []).1 (.obj []) rfl).1

/-! ### Interpretation of non-200 responses, request construction, display -/

/-- C4 counterexample: a 503 response whose body parses as JSON but is not an
object (here the list `[]`) makes `app.py` raise `AttributeError` internally
and return the unexpected-error string, which does not begin with
`API Error` — not the claimed status-plus-message ApiError failure. -/
theorem api_error_counterexample :
    (App.query_llm [] [] (.response 503 (("[]").toList) (some (.arr [])))).1
      = ("An unexpected error occurred: ").toList
          ++ noAttrMsg (("list").toList) (("get").toList)
    ∧ ((App.query_llm [] [] (.response 503 (("[]").toList) (some (.arr [])))).1).take 9
        ≠ ("API Error").toList := by
  exact ⟨by decide, by decide⟩

/-- C4 (amended): on a non-200 response, `app.py` returns
`API Error <status>: <message>` where the message is the body's `error`
field, else its `detail` field, else the raw body text — including when the
body is not JSON at all; but when the body parses as non-object JSON the call
returns the unexpected-error string instead.  `LLM_QA_CLI.py` always returns
`Error: <status> - <raw text>` without extracting any field. -/
theorem api_error_classification (q k text : List Char) (status : Nat)
    (hst : status ≠ 200) :
    ((App.query_llm q k (.response status text none)).1
      = ("API Error ").toList ++ (Nat.repr status).toList ++ (": ").toList ++ text) ∧
    (∀ fields v, getField fields (("error").toList) = some v →
      (App.query_llm q k (.response status text (some (.obj fields)))).1
        = ("API Error ").toList ++ (Nat.repr status).toList ++ (": ").toList ++ pyStr v) ∧
    (∀ fields v, getField fields (("error").toList) = none →
      getField fields (("detail").toList) = some v →
      (App.query_llm q k (.response status text (some (.obj fields)))).1
        = ("API Error ").toList ++ (Nat.repr status).toList ++ (": ").toList ++ pyStr v) ∧
    (∀ fields, getField fields (("error").toList) = none →
      getField fields (("detail").toList) = none →
      (App.query_llm q k (.response status text (some (.obj fields)))).1
        = ("API Error ").toList ++ (Nat.repr status).toList ++ (": ").toList ++ text) ∧
    (∀ j, isObj j = false →
      (App.query_llm q k (.response status text (some j))).1
        = ("An unexpected error occurred: ").toList
            ++ noAttrMsg (pyTypeName j) (("get").toList)) ∧
    (∀ body, (CLI.query_llm q k (.response status text body)).1
      = ("Error: ").toList ++ (Nat.repr status).toList ++ (" - ").toList ++ text) := by
  refine ⟨?_, ?_, ?_, ?_, ?_, ?_⟩
  · simp [App.query_llm, App.tryBody, hst]
  · intro fields v hv
    simp only [String.toList] at hv
    simp [App.query_llm, App.tryBody, hst, hv]
  · intro fields v he hd
    simp only [String.toList] at he hd
    simp [App.query_llm, App.tryBody, hst, he, hd]
  · intro fields he hd
    simp only [String.toList] at he hd
    simp [App.query_llm, App.tryBody, hst, he, hd]
  · intro j hj
    cases j with
    | obj fs => simp [isObj] at hj
    | str s => simp [App.query_llm, App.tryBody, App.handleExc, excStr, pyTypeName, hst]
    | num n => simp [App.query_llm, App.tryBody, App.handleExc, excStr, pyTypeName, hst]
    | bool b => simp [App.query_llm, App.tryBody, App.handleExc, excStr, pyTypeName, hst]
    | null => simp [App.query_llm, App.tryBody, App.handleExc, excStr, pyTypeName, hst]
    | arr elems => simp [App.query_llm, App.tryBody, App.handleExc, excStr, pyTypeName, hst]
  · intro body
    simp [CLI.query_llm, CLI.tryBody, hst]

/-- Witness for `api_error_classification`: the spec's own example — a 503
response with body `{"error": "model loading"}` — yields
`API Error 503: model loading`. -/
theorem api_error_classification_witness :
    (App.query_llm [] [] (.response 503 []
        (some (.obj [((("error").toList), .str (("model loading").toList))])))).1
      = ("API Error 503: model loading").toList := by
  have h := (api_error_classification [] [] [] 503 (by decide)).2.1
      [((("error").toList), .str (("model loading").toList))]
      (.str (("model loading").toList)) rfl
  exact h.trans (by decide)

/-- C6 (amended): every invocation of either `query_llm` issues exactly one
POST and performs no retry on any outcome; `app.py` attaches a 30-second
timeout to the request, while `LLM_QA_CLI.py` attaches no timeout at all. -/
theorem single_post_no_retry (q k : List Char) (o : PostResult) :
    (App.query_llm q k o).2 = [App.mkRequest q k] ∧
    ((App.query_llm q k o).2).length = 1 ∧
    (App.mkRequest q k).timeout = some 30 ∧
    (CLI.query_llm q k o).2 = [CLI.mkRequest q k] ∧
    ((CLI.query_llm q k o).2).length = 1 ∧
    (CLI.mkRequest q k).timeout = none :=
  ⟨rfl, rfl, rfl, rfl, rfl, rfl⟩

/-- C6 counterexample: the CLI's single POST is issued with no timeout at all,
contradicting the claimed bounded 30-second timeout on every invocation. -/
theorem cli_no_timeout_counterexample :
    (CLI.query_llm [] [] (.raises (.timeoutError []))).2 = [CLI.mkRequest [] []]
    ∧ (CLI.mkRequest [] []).timeout ≠ some 30
    ∧ (CLI.mkRequest [] []).timeout = none :=
  ⟨rfl, by decide, rfl⟩

/-- C9: both files build the request with the fixed generation parameters
`max_new_tokens = 500`, `temperature = 0.7`, `top_p = 0.95`,
`return_full_text = false`, the fixed instruction template interpolating the
question, and the `Authorization` header `Bearer ` followed by the credential
verbatim. -/
theorem request_construction (q k : List Char) :
    (App.mkRequest q k).payload.parameters = ⟨500, 0.7, 0.95, false⟩ ∧
    (CLI.mkRequest q k).payload.parameters = ⟨500, 0.7, 0.95, false⟩ ∧
    (App.mkRequest q k).payload.inputs
      = ("<s>[INST] Answer the following question concisely and accurately:\n\nQuestion: ").toList
          ++ q ++ ("\n\nAnswer: [/INST]").toList ∧
    (CLI.mkRequest q k).payload.inputs = prompt q ∧
    (App.mkRequest q k).authorization = ("Bearer ").toList ++ k ∧
    (CLI.mkRequest q k).authorization = ("Bearer ").toList ++ k :=
  ⟨rfl, rfl, rfl, rfl, rfl, rfl⟩

/-- C10: answers and failures share the plain string result type of
`query_llm`, and the `ask_button` handler decides error styling purely by the
three string literals; a genuine 200 answer whose `generated_text` happens to
start with `API Error` is therefore rendered as a failure, while an actual
connection failure is rendered the same way. -/
theorem string_sniffing_misclassifies :
    (App.query_llm [] [] (.response 200 []
        (some (.arr [.obj [((("generated_text").toList),
          .str (("API Error is the title of my talk").toList))]])))).1
      = ("API Error is the title of my talk").toList
    ∧ App.renderedAsError (("API Error is the title of my talk").toList) = true
    ∧ App.renderedAsError ((App.query_llm [] []
        (.raises (.connectionError []))).1) = true :=
  ⟨by decide, by decide, by decide⟩
